import Mathlib

/-!
# Verification of the fake NTP server codec and server loop

A shallow embedding of `ntp_packet.py` and `fake_ntp_server.py`:
the 16.16 and 32.32 fixed-point time types (`NTPShort`, `NTPTimestamp`),
the 48-byte NTP packet header codec (`NTPPacket`), and one iteration of
the UDP server loop (`serverStep`).

Modelling conventions:
* a byte string is a `List Nat` (each entry a byte value);
* Python's arbitrary-precision ints are `Int` (or `Nat` for values that
  are only ever non-negative in the program);
* Python floats are modelled as `ℚ`; `long(x)` truncation toward zero is
  `pyTrunc`, Python 2's `round` (ties away from zero) is `pyRound`;
* `struct.pack` range errors are modelled by `Option`: `none` means the
  call raises; `struct.unpack` of an already length-checked slice is total;
* Python's `x & 0xffffffff` on ints of any sign equals `x % 2^32`
  (Euclidean remainder), and is written that way;
* bit packing of the first header byte, `leap << 6 | version << 3 | mode`,
  is rendered arithmetically as `leap * 64 + version * 8 + mode`, and the
  unpacking masks `(b >> 6) & 0x3`, `(b >> 3) & 0x7`, `b & 0x7` as
  `b / 64 % 4`, `b / 8 % 8`, `b % 8`.
-/

/-- Python `long(x)` / `int(x)` on a float: truncation toward zero. -/
def pyTrunc (q : ℚ) : Int :=
  if 0 ≤ q then ⌊q⌋ else -⌊-q⌋

/-- Python 2 `round`: round half away from zero (then `long` of the result). -/
def pyRound (q : ℚ) : Int :=
  if 0 ≤ q then ⌊q + 1/2⌋ else -⌊-q + 1/2⌋

/-- `struct.pack` of a `>B` (unsigned byte) field. -/
def pack_u8 (n : Nat) : Option (List Nat) :=
  if n < 256 then some [n] else none

/-- `struct.pack` of a `>b` (signed byte) field: two's complement. -/
def pack_i8 (n : Int) : Option (List Nat) :=
  if -128 ≤ n ∧ n < 128 then some [(n % 256).toNat] else none

/-- `struct.unpack` of a `>b` (signed byte) field. -/
def unpack_i8 (b : Nat) : Int :=
  if b < 128 then (b : Int) else (b : Int) - 256

/-- `struct.pack` of a `>H` (big-endian unsigned 16-bit) field. -/
def pack_u16 (n : Int) : Option (List Nat) :=
  if 0 ≤ n ∧ n < 65536 then some [n.toNat / 256, n.toNat % 256] else none

/-- `struct.pack` of a `>I` (big-endian unsigned 32-bit) field. -/
def pack_u32 (n : Int) : Option (List Nat) :=
  if 0 ≤ n ∧ n < 4294967296 then
    some [n.toNat / 16777216, n.toNat / 65536 % 256, n.toNat / 256 % 256, n.toNat % 256]
  else none

/-- `class NTPShort`: 16.16-bit fixed point. Fields are Python longs. -/
structure NTPShort where
  seconds : Int
  fraction : Int
deriving DecidableEq, Repr

/-- `class NTPTimestamp`: 32.32-bit fixed point, NTP epoch. -/
structure NTPTimestamp where
  seconds : Int
  fraction : Int
deriving DecidableEq, Repr

/-- `NTPShort.from_bytes`: raises unless the input is exactly 4 bytes,
then `struct.unpack('>HH', data)`. -/
def NTPShort.from_bytes (data : List Nat) : Option NTPShort :=
  if data.length ≠ 4 then none
  else some ⟨((256 * data.getD 0 0 + data.getD 1 0 : Nat) : Int),
             ((256 * data.getD 2 0 + data.getD 3 0 : Nat) : Int)⟩

/-- `NTPShort.from_float`: `seconds = long(value)`,
`fraction = long(round((value - seconds) * 0x10000))`, with carry into
`seconds` when the fraction exceeds `0xffff`. -/
def NTPShort.from_float (value : ℚ) : NTPShort :=
  let seconds := pyTrunc value
  let fraction := pyRound ((value - (seconds : ℚ)) * 65536)
  if 65535 < fraction then ⟨seconds + 1, 0⟩ else ⟨seconds, fraction⟩

/-- `NTPShort.to_bytes`: `struct.pack('>HH', seconds, fraction)`. -/
def NTPShort.to_bytes (v : NTPShort) : Option (List Nat) :=
  (pack_u16 v.seconds).bind fun a =>
  (pack_u16 v.fraction).bind fun b =>
  some (a ++ b)

/-- `NTPShort.to_float`: `seconds + fraction / 65536.0`. -/
def NTPShort.to_float (v : NTPShort) : ℚ :=
  (v.seconds : ℚ) + (v.fraction : ℚ) / 65536

/-- `NTPShort.ZERO` class constant. -/
def NTPShort.ZERO : NTPShort := ⟨0, 0⟩

/-- `NTPTimestamp.from_bytes`: raises unless the input is exactly 8 bytes,
then `struct.unpack('>II', data)`. -/
def NTPTimestamp.from_bytes (data : List Nat) : Option NTPTimestamp :=
  if data.length ≠ 8 then none
  else some
    ⟨((16777216 * data.getD 0 0 + 65536 * data.getD 1 0 +
        256 * data.getD 2 0 + data.getD 3 0 : Nat) : Int),
     ((16777216 * data.getD 4 0 + 65536 * data.getD 5 0 +
        256 * data.getD 6 0 + data.getD 7 0 : Nat) : Int)⟩

/-- `NTPTimestamp.from_unix_timestamp`: `seconds = long(timestamp)`;
`fraction = long(round((timestamp - seconds) * 0x100000000))`, clamped to
`0xffffffff` on overflow (no carry); then `seconds += 0x83aa7e80` and
`seconds &= 0xffffffff` (written as Euclidean `% 2^32`). -/
def NTPTimestamp.from_unix_timestamp (timestamp : ℚ) : NTPTimestamp :=
  let seconds := pyTrunc timestamp
  let fraction := pyRound ((timestamp - (seconds : ℚ)) * 4294967296)
  let fraction := if 4294967295 < fraction then 4294967295 else fraction
  let seconds := (seconds + 2208988800) % 4294967296
  ⟨seconds, fraction⟩

/-- `NTPTimestamp.to_bytes`: `struct.pack('>II', seconds, fraction)`. -/
def NTPTimestamp.to_bytes (v : NTPTimestamp) : Option (List Nat) :=
  (pack_u32 v.seconds).bind fun a =>
  (pack_u32 v.fraction).bind fun b =>
  some (a ++ b)

/-- `NTPTimestamp.to_unix_timestamp`: `seconds - 0x83aa7e80 + fraction / 0x100000000`. -/
def NTPTimestamp.to_unix_timestamp (v : NTPTimestamp) : ℚ :=
  (v.seconds : ℚ) - 2208988800 + (v.fraction : ℚ) / 4294967296

/-- `NTPTimestamp.ZERO` class constant. -/
def NTPTimestamp.ZERO : NTPTimestamp := ⟨0, 0⟩

/-- `class NTPPacket`: the 48-byte NTP header. -/
structure NTPPacket where
  leap_indicator : Nat
  version : Nat
  mode : Nat
  stratum : Nat
  poll : Int
  precision : Int
  root_delay : NTPShort
  root_dispersion : NTPShort
  reference_identifier : List Nat
  reference_timestamp : NTPTimestamp
  origin_timestamp : NTPTimestamp
  receive_timestamp : NTPTimestamp
  transmit_timestamp : NTPTimestamp
deriving DecidableEq, Repr

/-- The class-level default field values of `NTPPacket` (a freshly
constructed `NTPPacket()`). -/
def NTPPacket.defaults : NTPPacket :=
  { leap_indicator := 0
    version := 3
    mode := 3
    stratum := 0
    poll := 0
    precision := 0
    root_delay := NTPShort.ZERO
    root_dispersion := NTPShort.ZERO
    reference_identifier := [0, 0, 0, 0]
    reference_timestamp := NTPTimestamp.ZERO
    origin_timestamp := NTPTimestamp.ZERO
    receive_timestamp := NTPTimestamp.ZERO
    transmit_timestamp := NTPTimestamp.ZERO }

/-- `NTPPacket.from_bytes`: `raise ValueError('packet too short')` when
`len(data) < 48 and len(data) != 68`; otherwise unpack the header byte
`b1` into `leap_indicator = (b1 >> 6) & 0x3`, `version = (b1 >> 3) & 0x7`,
`mode = b1 & 0x7` (masks written as `/ 2^k % 2^j`), bytes 1-3 as
`stratum`, `poll`, `precision` (`>BBbb`), and delegate the remaining
slices to the fixed-point decoders in field order. -/
def NTPPacket.from_bytes (data : List Nat) : Option NTPPacket :=
  if data.length < 48 ∧ data.length ≠ 68 then none
  else
    let b1 := data.getD 0 0
    (NTPShort.from_bytes ((data.drop 4).take 4)).bind fun rd =>
    (NTPShort.from_bytes ((data.drop 8).take 4)).bind fun rdp =>
    (NTPTimestamp.from_bytes ((data.drop 16).take 8)).bind fun rt =>
    (NTPTimestamp.from_bytes ((data.drop 24).take 8)).bind fun ot =>
    (NTPTimestamp.from_bytes ((data.drop 32).take 8)).bind fun rcv =>
    (NTPTimestamp.from_bytes ((data.drop 40).take 8)).bind fun tt =>
    some
      { leap_indicator := b1 / 64 % 4
        version := b1 / 8 % 8
        mode := b1 % 8
        stratum := data.getD 1 0
        poll := unpack_i8 (data.getD 2 0)
        precision := unpack_i8 (data.getD 3 0)
        root_delay := rd
        root_dispersion := rdp
        reference_identifier := (data.drop 12).take 4
        reference_timestamp := rt
        origin_timestamp := ot
        receive_timestamp := rcv
        transmit_timestamp := tt }

/-- `NTPPacket.to_bytes`: `b1 = leap_indicator << 6 | version << 3 | mode`
(disjoint bit-or written as `* 64 + * 8 +`), `struct.pack('>BBbb', ...)`,
then each sub-field's encoding in field order, the raw
`reference_identifier` bytes in the middle. -/
def NTPPacket.to_bytes (p : NTPPacket) : Option (List Nat) :=
  let b1 := p.leap_indicator * 64 + p.version * 8 + p.mode
  (pack_u8 b1).bind fun h0 =>
  (pack_u8 p.stratum).bind fun h1 =>
  (pack_i8 p.poll).bind fun h2 =>
  (pack_i8 p.precision).bind fun h3 =>
  p.root_delay.to_bytes.bind fun rd =>
  p.root_dispersion.to_bytes.bind fun rdp =>
  p.reference_timestamp.to_bytes.bind fun rt =>
  p.origin_timestamp.to_bytes.bind fun ot =>
  p.receive_timestamp.to_bytes.bind fun rcv =>
  p.transmit_timestamp.to_bytes.bind fun tt =>
  some (h0 ++ h1 ++ h2 ++ h3 ++ rd ++ rdp ++ p.reference_identifier ++
        rt ++ ot ++ rcv ++ tt)

/-- The drift factor `speed = 0.9996` in `fake_server`. -/
def speed : ℚ := 9996 / 10000

/-- The response packet built by `fake_server` for a validated request:
a fresh `NTPPacket()` whose `version`, `mode`, `stratum`,
`reference_identifier`, `origin_timestamp` and the three time fields are
then assigned. -/
def buildResponse (packet : NTPPacket) (return_time : ℚ) : NTPPacket :=
  { NTPPacket.defaults with
    version := packet.version
    mode := 4
    stratum := 1
    reference_identifier := [88, 70, 65, 75]
    origin_timestamp := packet.transmit_timestamp
    reference_timestamp := NTPTimestamp.from_unix_timestamp return_time
    receive_timestamp := NTPTimestamp.from_unix_timestamp return_time
    transmit_timestamp := NTPTimestamp.from_unix_timestamp return_time }

/-- One iteration of the `while True` loop of `fake_server`, given the
process start time `drift_start`, the current wall clock `now` (both as
POSIX times) and the received datagram. `Except.error` models an uncaught
Python exception (fatal to the process); `Except.ok none` models
`continue` with no datagram sent; `Except.ok (some out)` models
`s.sendto(out, source)`. -/
def serverStep (drift_start now : ℚ) (data : List Nat) :
    Except String (Option (List Nat)) :=
  match NTPPacket.from_bytes data with
  | none => Except.error "packet too short"
  | some packet =>
    if packet.version ≠ 3 ∧ packet.version ≠ 4 then Except.ok none
    else if packet.mode ≠ 3 then Except.ok none
    else
      let time_since_start := now - drift_start
      let return_time := drift_start + time_since_start * speed
      let response := buildResponse packet return_time
      match response.to_bytes with
      | none => Except.error "struct.error"
      | some out => Except.ok (some out)

/-- The field-width invariants of an `NTPShort` (unsigned 16-bit halves). -/
def NTPShort.widthOK (v : NTPShort) : Prop :=
  0 ≤ v.seconds ∧ v.seconds < 65536 ∧ 0 ≤ v.fraction ∧ v.fraction < 65536

/-- The field-width invariants of an `NTPTimestamp` (unsigned 32-bit halves). -/
def NTPTimestamp.widthOK (v : NTPTimestamp) : Prop :=
  0 ≤ v.seconds ∧ v.seconds < 4294967296 ∧ 0 ≤ v.fraction ∧ v.fraction < 4294967296

/-- The field-width invariants of an `NTPPacket`: bit-field ranges, byte
ranges, signed-byte ranges, fixed-point widths and a 4-byte
`reference_identifier`. -/
def NTPPacket.widthOK (p : NTPPacket) : Prop :=
  p.leap_indicator < 4 ∧ p.version < 8 ∧ p.mode < 8 ∧ p.stratum < 256 ∧
  -128 ≤ p.poll ∧ p.poll < 128 ∧ -128 ≤ p.precision ∧ p.precision < 128 ∧
  p.root_delay.widthOK ∧ p.root_dispersion.widthOK ∧
  p.reference_identifier.length = 4 ∧
  p.reference_timestamp.widthOK ∧ p.origin_timestamp.widthOK ∧
  p.receive_timestamp.widthOK ∧ p.transmit_timestamp.widthOK

/-! ## Helper lemmas -/

lemma exists_len_succ (l : List Nat) (n : Nat) (h : l.length = n + 1) :
    ∃ a t, l = a :: t ∧ t.length = n := by
  cases l with
  | nil => simp at h
  | cons a t => exact ⟨a, t, rfl, by simpa using h⟩

lemma pack_i8_unpack_i8 (b : Nat) (hb : b < 256) :
    pack_i8 (unpack_i8 b) = some [b] := by
  unfold pack_i8 unpack_i8
  split
  · rw [if_pos (by omega)]
    congr 1
    simp only [List.cons.injEq, and_true]
    omega
  · rw [if_pos (by omega)]
    congr 1
    simp only [List.cons.injEq, and_true]
    omega

lemma unpack_i8_range (b : Nat) (hb : b < 256) :
    -128 ≤ unpack_i8 b ∧ unpack_i8 b < 128 := by
  unfold unpack_i8
  split <;> omega

lemma unpack_i8_pack (n : Int) (h1 : -128 ≤ n) (h2 : n < 128) :
    (n % 256).toNat < 256 ∧ unpack_i8 (n % 256).toNat = n := by
  unfold unpack_i8
  constructor
  · omega
  · split <;> omega

lemma short_roundtrip (v : NTPShort) (h : v.widthOK) :
    ∃ b, v.to_bytes = some b ∧ b.length = 4 ∧ NTPShort.from_bytes b = some v := by
  obtain ⟨s, f⟩ := v
  obtain ⟨h1, h2, h3, h4⟩ := h
  simp only at h1 h2 h3 h4
  refine ⟨[s.toNat / 256, s.toNat % 256, f.toNat / 256, f.toNat % 256], ?_, rfl, ?_⟩
  · simp only [NTPShort.to_bytes, pack_u16]
    rw [if_pos ⟨h1, h2⟩, if_pos ⟨h3, h4⟩]
    rfl
  · simp only [NTPShort.from_bytes, List.length_cons, List.length_nil]
    rw [if_neg (by omega)]
    simp only [List.getD_cons_zero, List.getD_cons_succ, Option.some.injEq,
      NTPShort.mk.injEq]
    omega

lemma ts_roundtrip (v : NTPTimestamp) (h : v.widthOK) :
    ∃ b, v.to_bytes = some b ∧ b.length = 8 ∧ NTPTimestamp.from_bytes b = some v := by
  obtain ⟨s, f⟩ := v
  obtain ⟨h1, h2, h3, h4⟩ := h
  simp only at h1 h2 h3 h4
  refine ⟨[s.toNat / 16777216, s.toNat / 65536 % 256, s.toNat / 256 % 256, s.toNat % 256,
           f.toNat / 16777216, f.toNat / 65536 % 256, f.toNat / 256 % 256, f.toNat % 256],
          ?_, rfl, ?_⟩
  · simp only [NTPTimestamp.to_bytes, pack_u32]
    rw [if_pos ⟨h1, h2⟩, if_pos ⟨h3, h4⟩]
    rfl
  · simp only [NTPTimestamp.from_bytes, List.length_cons, List.length_nil]
    rw [if_neg (by omega)]
    simp only [List.getD_cons_zero, List.getD_cons_succ, Option.some.injEq,
      NTPTimestamp.mk.injEq]
    omega

lemma short_reencode (s : List Nat) (hlen : s.length = 4) (hb : ∀ x ∈ s, x < 256) :
    ∃ v, NTPShort.from_bytes s = some v ∧ v.widthOK ∧ v.to_bytes = some s := by
  obtain ⟨a0, s1, rfl, k3⟩ := exists_len_succ s _ hlen
  obtain ⟨a1, s2, rfl, k2⟩ := exists_len_succ s1 _ k3
  obtain ⟨a2, s3, rfl, k1⟩ := exists_len_succ s2 _ k2
  obtain ⟨a3, s4, rfl, k0⟩ := exists_len_succ s3 _ k1
  rw [List.length_eq_zero.mp k0]
  have b0 : a0 < 256 := hb a0 (by simp)
  have b1 : a1 < 256 := hb a1 (by simp)
  have b2 : a2 < 256 := hb a2 (by simp)
  have b3 : a3 < 256 := hb a3 (by simp)
  refine ⟨⟨((256 * a0 + a1 : Nat) : Int), ((256 * a2 + a3 : Nat) : Int)⟩,
    by simp [NTPShort.from_bytes],
    by unfold NTPShort.widthOK; refine ⟨?_, ?_, ?_, ?_⟩ <;> simp <;> omega, ?_⟩
  simp only [NTPShort.to_bytes, pack_u16]
  rw [if_pos (by constructor <;> omega), if_pos (by constructor <;> omega)]
  simp only [Option.some_bind, Option.some.injEq, List.cons_append, List.nil_append,
    List.cons.injEq, and_true]
  refine ⟨by omega, by omega, by omega, by omega⟩

lemma ts_reencode (s : List Nat) (hlen : s.length = 8) (hb : ∀ x ∈ s, x < 256) :
    ∃ v, NTPTimestamp.from_bytes s = some v ∧ v.widthOK ∧ v.to_bytes = some s := by
  obtain ⟨a0, s1, rfl, k7⟩ := exists_len_succ s _ hlen
  obtain ⟨a1, s2, rfl, k6⟩ := exists_len_succ s1 _ k7
  obtain ⟨a2, s3, rfl, k5⟩ := exists_len_succ s2 _ k6
  obtain ⟨a3, s4, rfl, k4⟩ := exists_len_succ s3 _ k5
  obtain ⟨a4, s5, rfl, k3⟩ := exists_len_succ s4 _ k4
  obtain ⟨a5, s6, rfl, k2⟩ := exists_len_succ s5 _ k3
  obtain ⟨a6, s7, rfl, k1⟩ := exists_len_succ s6 _ k2
  obtain ⟨a7, s8, rfl, k0⟩ := exists_len_succ s7 _ k1
  rw [List.length_eq_zero.mp k0]
  have b0 : a0 < 256 := hb a0 (by simp)
  have b1 : a1 < 256 := hb a1 (by simp)
  have b2 : a2 < 256 := hb a2 (by simp)
  have b3 : a3 < 256 := hb a3 (by simp)
  have b4 : a4 < 256 := hb a4 (by simp)
  have b5 : a5 < 256 := hb a5 (by simp)
  have b6 : a6 < 256 := hb a6 (by simp)
  have b7 : a7 < 256 := hb a7 (by simp)
  refine ⟨⟨((16777216 * a0 + 65536 * a1 + 256 * a2 + a3 : Nat) : Int),
           ((16777216 * a4 + 65536 * a5 + 256 * a6 + a7 : Nat) : Int)⟩,
    by simp [NTPTimestamp.from_bytes],
    by unfold NTPTimestamp.widthOK; refine ⟨?_, ?_, ?_, ?_⟩ <;> simp <;> omega, ?_⟩
  simp only [NTPTimestamp.to_bytes, pack_u32]
  rw [if_pos (by constructor <;> omega), if_pos (by constructor <;> omega)]
  simp only [Option.some_bind, Option.some.injEq, List.cons_append, List.nil_append,
    List.cons.injEq, and_true]
  refine ⟨by omega, by omega, by omega, by omega, by omega, by omega, by omega, by omega⟩

lemma pack_u8_eq (n : Nat) (h : n < 256) : pack_u8 n = some [n] := by
  unfold pack_u8
  rw [if_pos h]

lemma pack_i8_eq (n : Int) (h1 : -128 ≤ n) (h2 : n < 128) :
    pack_i8 n = some [(n % 256).toNat] := by
  unfold pack_i8
  rw [if_pos ⟨h1, h2⟩]

lemma exists_cons_of_le (l : List Nat) (n : Nat) (h : n + 1 ≤ l.length) :
    ∃ a t, l = a :: t ∧ n ≤ t.length := by
  cases l with
  | nil => simp at h
  | cons a t => exact ⟨a, t, rfl, by simpa using h⟩

lemma exists_len4 (s : List Nat) (h : s.length = 4) :
    ∃ a b c d, s = [a, b, c, d] := by
  obtain ⟨a, s1, rfl, k3⟩ := exists_len_succ s _ h
  obtain ⟨b, s2, rfl, k2⟩ := exists_len_succ s1 _ k3
  obtain ⟨c, s3, rfl, k1⟩ := exists_len_succ s2 _ k2
  obtain ⟨d, s4, rfl, k0⟩ := exists_len_succ s3 _ k1
  rw [List.length_eq_zero.mp k0]
  exact ⟨a, b, c, d, rfl⟩

lemma exists_len8 (s : List Nat) (h : s.length = 8) :
    ∃ a b c d e f g k, s = [a, b, c, d, e, f, g, k] := by
  obtain ⟨a, s1, rfl, k7⟩ := exists_len_succ s _ h
  obtain ⟨b, s2, rfl, k6⟩ := exists_len_succ s1 _ k7
  obtain ⟨c, s3, rfl, k5⟩ := exists_len_succ s2 _ k6
  obtain ⟨d, s4, rfl, k4⟩ := exists_len_succ s3 _ k5
  obtain ⟨e, s5, rfl, k3⟩ := exists_len_succ s4 _ k4
  obtain ⟨f, s6, rfl, k2⟩ := exists_len_succ s5 _ k3
  obtain ⟨g, s7, rfl, k1⟩ := exists_len_succ s6 _ k2
  obtain ⟨k, s8, rfl, k0⟩ := exists_len_succ s7 _ k1
  rw [List.length_eq_zero.mp k0]
  exact ⟨a, b, c, d, e, f, g, k, rfl⟩

lemma packet_roundtrip (p : NTPPacket) (h : p.widthOK) :
    ∃ out, p.to_bytes = some out ∧ out.length = 48 ∧
      NTPPacket.from_bytes out = some p := by
  obtain ⟨l, ver, md, st, po, pr, rd, rdp, rid, rt, ot, rc, tt⟩ := p
  unfold NTPPacket.widthOK at h
  simp only at h
  obtain ⟨w1, w2, w3, w4, w5, w6, w7, w8, w9, w10, w11, w12, w13, w14, w15⟩ := h
  obtain ⟨brd, hrd1, hrd2, hrd3⟩ := short_roundtrip rd w9
  obtain ⟨brdp, hq1, hq2, hq3⟩ := short_roundtrip rdp w10
  obtain ⟨brt, ht1, ht2, ht3⟩ := ts_roundtrip rt w12
  obtain ⟨bot, ho1, ho2, ho3⟩ := ts_roundtrip ot w13
  obtain ⟨brc, hc1, hc2, hc3⟩ := ts_roundtrip rc w14
  obtain ⟨btt, hv1, hv2, hv3⟩ := ts_roundtrip tt w15
  obtain ⟨a0, a1, a2, a3, rfl⟩ := exists_len4 brd hrd2
  obtain ⟨b0, b1, b2, b3, rfl⟩ := exists_len4 brdp hq2
  obtain ⟨r0, r1, r2, r3, rfl⟩ := exists_len4 rid w11
  obtain ⟨t0, t1, t2, t3, t4, t5, t6, t7, rfl⟩ := exists_len8 brt ht2
  obtain ⟨o0, o1, o2, o3, o4, o5, o6, o7, rfl⟩ := exists_len8 bot ho2
  obtain ⟨c0, c1, c2, c3, c4, c5, c6, c7, rfl⟩ := exists_len8 brc hc2
  obtain ⟨v0, v1, v2, v3, v4, v5, v6, v7, rfl⟩ := exists_len8 btt hv2
  refine ⟨(l * 64 + ver * 8 + md) :: st :: (po % 256).toNat :: (pr % 256).toNat ::
      [a0, a1, a2, a3, b0, b1, b2, b3, r0, r1, r2, r3,
       t0, t1, t2, t3, t4, t5, t6, t7, o0, o1, o2, o3, o4, o5, o6, o7,
       c0, c1, c2, c3, c4, c5, c6, c7, v0, v1, v2, v3, v4, v5, v6, v7], ?_, rfl, ?_⟩
  · simp only [NTPPacket.to_bytes]
    rw [pack_u8_eq _ (by omega), pack_u8_eq _ w4, pack_i8_eq _ w5 w6, pack_i8_eq _ w7 w8,
      hrd1, hq1, ht1, ho1, hc1, hv1]
    simp only [Option.some_bind]
    rfl
  · unfold NTPPacket.from_bytes
    rw [if_neg (by norm_num)]
    have S1 : NTPShort.from_bytes ((((l * 64 + ver * 8 + md) :: st :: (po % 256).toNat ::
        (pr % 256).toNat :: [a0, a1, a2, a3, b0, b1, b2, b3, r0, r1, r2, r3,
        t0, t1, t2, t3, t4, t5, t6, t7, o0, o1, o2, o3, o4, o5, o6, o7,
        c0, c1, c2, c3, c4, c5, c6, c7, v0, v1, v2, v3, v4, v5, v6, v7]).drop 4).take 4) =
        some rd := hrd3
    have S2 : NTPShort.from_bytes ((((l * 64 + ver * 8 + md) :: st :: (po % 256).toNat ::
        (pr % 256).toNat :: [a0, a1, a2, a3, b0, b1, b2, b3, r0, r1, r2, r3,
        t0, t1, t2, t3, t4, t5, t6, t7, o0, o1, o2, o3, o4, o5, o6, o7,
        c0, c1, c2, c3, c4, c5, c6, c7, v0, v1, v2, v3, v4, v5, v6, v7]).drop 8).take 4) =
        some rdp := hq3
    have S3 : NTPTimestamp.from_bytes ((((l * 64 + ver * 8 + md) :: st :: (po % 256).toNat ::
        (pr % 256).toNat :: [a0, a1, a2, a3, b0, b1, b2, b3, r0, r1, r2, r3,
        t0, t1, t2, t3, t4, t5, t6, t7, o0, o1, o2, o3, o4, o5, o6, o7,
        c0, c1, c2, c3, c4, c5, c6, c7, v0, v1, v2, v3, v4, v5, v6, v7]).drop 16).take 8) =
        some rt := ht3
    have S4 : NTPTimestamp.from_bytes ((((l * 64 + ver * 8 + md) :: st :: (po % 256).toNat ::
        (pr % 256).toNat :: [a0, a1, a2, a3, b0, b1, b2, b3, r0, r1, r2, r3,
        t0, t1, t2, t3, t4, t5, t6, t7, o0, o1, o2, o3, o4, o5, o6, o7,
        c0, c1, c2, c3, c4, c5, c6, c7, v0, v1, v2, v3, v4, v5, v6, v7]).drop 24).take 8) =
        some ot := ho3
    have S5 : NTPTimestamp.from_bytes ((((l * 64 + ver * 8 + md) :: st :: (po % 256).toNat ::
        (pr % 256).toNat :: [a0, a1, a2, a3, b0, b1, b2, b3, r0, r1, r2, r3,
        t0, t1, t2, t3, t4, t5, t6, t7, o0, o1, o2, o3, o4, o5, o6, o7,
        c0, c1, c2, c3, c4, c5, c6, c7, v0, v1, v2, v3, v4, v5, v6, v7]).drop 32).take 8) =
        some rc := hc3
    have S6 : NTPTimestamp.from_bytes ((((l * 64 + ver * 8 + md) :: st :: (po % 256).toNat ::
        (pr % 256).toNat :: [a0, a1, a2, a3, b0, b1, b2, b3, r0, r1, r2, r3,
        t0, t1, t2, t3, t4, t5, t6, t7, o0, o1, o2, o3, o4, o5, o6, o7,
        c0, c1, c2, c3, c4, c5, c6, c7, v0, v1, v2, v3, v4, v5, v6, v7]).drop 40).take 8) =
        some tt := hv3
    rw [S1, S2, S3, S4, S5, S6]
    simp only [Option.some_bind, Option.some.injEq, NTPPacket.mk.injEq,
      List.getD_cons_zero, List.getD_cons_succ,
      (unpack_i8_pack po w5 w6).2, (unpack_i8_pack pr w7 w8).2]
    and_intros <;> first | trivial | omega

lemma take_chunk (l : List Nat) (m n k : Nat) (hk : k = m + n) :
    l.take k = l.take m ++ (l.drop m).take n := by
  subst hk
  exact List.take_add ..

lemma drop_comp (l : List Nat) (m n k : Nat) (hk : k = m + n) :
    (l.drop m).drop n = l.drop k := by
  subst hk
  rw [List.drop_drop]

lemma from_bytes_none (data : List Nat) (h : data.length < 48) :
    NTPPacket.from_bytes data = none := by
  unfold NTPPacket.from_bytes
  rw [if_pos ⟨h, by omega⟩]

lemma from_bytes_isSome (data : List Nat) (h : 48 ≤ data.length) :
    (NTPPacket.from_bytes data).isSome = true := by
  obtain ⟨v1, E1⟩ : ∃ v, NTPShort.from_bytes ((data.drop 4).take 4) = some v := by
    unfold NTPShort.from_bytes
    rw [if_neg (by simp only [ne_eq, List.length_take, List.length_drop]; omega)]
    exact ⟨_, rfl⟩
  obtain ⟨v2, E2⟩ : ∃ v, NTPShort.from_bytes ((data.drop 8).take 4) = some v := by
    unfold NTPShort.from_bytes
    rw [if_neg (by simp only [ne_eq, List.length_take, List.length_drop]; omega)]
    exact ⟨_, rfl⟩
  obtain ⟨u1, E3⟩ : ∃ v, NTPTimestamp.from_bytes ((data.drop 16).take 8) = some v := by
    unfold NTPTimestamp.from_bytes
    rw [if_neg (by simp only [ne_eq, List.length_take, List.length_drop]; omega)]
    exact ⟨_, rfl⟩
  obtain ⟨u2, E4⟩ : ∃ v, NTPTimestamp.from_bytes ((data.drop 24).take 8) = some v := by
    unfold NTPTimestamp.from_bytes
    rw [if_neg (by simp only [ne_eq, List.length_take, List.length_drop]; omega)]
    exact ⟨_, rfl⟩
  obtain ⟨u3, E5⟩ : ∃ v, NTPTimestamp.from_bytes ((data.drop 32).take 8) = some v := by
    unfold NTPTimestamp.from_bytes
    rw [if_neg (by simp only [ne_eq, List.length_take, List.length_drop]; omega)]
    exact ⟨_, rfl⟩
  obtain ⟨u4, E6⟩ : ∃ v, NTPTimestamp.from_bytes ((data.drop 40).take 8) = some v := by
    unfold NTPTimestamp.from_bytes
    rw [if_neg (by simp only [ne_eq, List.length_take, List.length_drop]; omega)]
    exact ⟨_, rfl⟩
  unfold NTPPacket.from_bytes
  rw [if_neg (by omega), E1, E2, E3, E4, E5, E6]
  simp only [Option.some_bind, Option.isSome_some]

lemma from_bytes_full (data : List Nat) (h48 : 48 ≤ data.length)
    (hb : ∀ x ∈ data, x < 256) :
    ∃ p, NTPPacket.from_bytes data = some p ∧ p.widthOK ∧
      p.to_bytes = some (data.take 48) := by
  obtain ⟨d0, r1, rfl, k1⟩ := exists_cons_of_le data 47 h48
  obtain ⟨d1, r2, rfl, k2⟩ := exists_cons_of_le r1 46 k1
  obtain ⟨d2, r3, rfl, k3⟩ := exists_cons_of_le r2 45 k2
  obtain ⟨d3, r, rfl, k4⟩ := exists_cons_of_le r3 44 k3
  have hbr : ∀ x ∈ r, x < 256 := fun x hx => hb x (by simp [hx])
  have hd0 : d0 < 256 := hb d0 (by simp)
  have hd1 : d1 < 256 := hb d1 (by simp)
  have hd2 : d2 < 256 := hb d2 (by simp)
  have hd3 : d3 < 256 := hb d3 (by simp)
  have L1 : (r.take 4).length = 4 := by
    simp only [List.length_take]
    omega
  have M1 : ∀ x ∈ r.take 4, x < 256 := fun x hx => hbr x (List.take_subset _ _ hx)
  obtain ⟨v1, E1, W1, B1⟩ := short_reencode (r.take 4) L1 M1
  have L2 : ((r.drop 4).take 4).length = 4 := by
    simp only [List.length_take, List.length_drop]
    omega
  have M2 : ∀ x ∈ (r.drop 4).take 4, x < 256 :=
    fun x hx => hbr x (List.drop_subset _ _ (List.take_subset _ _ hx))
  obtain ⟨v2, E2, W2, B2⟩ := short_reencode ((r.drop 4).take 4) L2 M2
  have L3 : ((r.drop 8).take 4).length = 4 := by
    simp only [List.length_take, List.length_drop]
    omega
  have L4 : ((r.drop 12).take 8).length = 8 := by
    simp only [List.length_take, List.length_drop]
    omega
  have M4 : ∀ x ∈ (r.drop 12).take 8, x < 256 :=
    fun x hx => hbr x (List.drop_subset _ _ (List.take_subset _ _ hx))
  obtain ⟨u1, E4, W4, B4⟩ := ts_reencode ((r.drop 12).take 8) L4 M4
  have L5 : ((r.drop 20).take 8).length = 8 := by
    simp only [List.length_take, List.length_drop]
    omega
  have M5 : ∀ x ∈ (r.drop 20).take 8, x < 256 :=
    fun x hx => hbr x (List.drop_subset _ _ (List.take_subset _ _ hx))
  obtain ⟨u2, E5, W5, B5⟩ := ts_reencode ((r.drop 20).take 8) L5 M5
  have L6 : ((r.drop 28).take 8).length = 8 := by
    simp only [List.length_take, List.length_drop]
    omega
  have M6 : ∀ x ∈ (r.drop 28).take 8, x < 256 :=
    fun x hx => hbr x (List.drop_subset _ _ (List.take_subset _ _ hx))
  obtain ⟨u3, E6, W6, B6⟩ := ts_reencode ((r.drop 28).take 8) L6 M6
  have L7 : ((r.drop 36).take 8).length = 8 := by
    simp only [List.length_take, List.length_drop]
    omega
  have M7 : ∀ x ∈ (r.drop 36).take 8, x < 256 :=
    fun x hx => hbr x (List.drop_subset _ _ (List.take_subset _ _ hx))
  obtain ⟨u4, E7, W7, B7⟩ := ts_reencode ((r.drop 36).take 8) L7 M7
  refine ⟨{ leap_indicator := d0 / 64 % 4, version := d0 / 8 % 8, mode := d0 % 8,
            stratum := d1, poll := unpack_i8 d2, precision := unpack_i8 d3,
            root_delay := v1, root_dispersion := v2,
            reference_identifier := (r.drop 8).take 4,
            reference_timestamp := u1, origin_timestamp := u2,
            receive_timestamp := u3, transmit_timestamp := u4 }, ?_, ?_, ?_⟩
  · unfold NTPPacket.from_bytes
    rw [if_neg (by simp only [List.length_cons]; omega)]
    have R1 : (d0 :: d1 :: d2 :: d3 :: r).drop 4 = r := rfl
    have R2 : (d0 :: d1 :: d2 :: d3 :: r).drop 8 = r.drop 4 := rfl
    have R3 : (d0 :: d1 :: d2 :: d3 :: r).drop 12 = r.drop 8 := rfl
    have R4 : (d0 :: d1 :: d2 :: d3 :: r).drop 16 = r.drop 12 := rfl
    have R5 : (d0 :: d1 :: d2 :: d3 :: r).drop 24 = r.drop 20 := rfl
    have R6 : (d0 :: d1 :: d2 :: d3 :: r).drop 32 = r.drop 28 := rfl
    have R7 : (d0 :: d1 :: d2 :: d3 :: r).drop 40 = r.drop 36 := rfl
    rw [R1, R2, R3, R4, R5, R6, R7, E1, E2, E4, E5, E6, E7]
    simp only [Option.some_bind, List.getD_cons_zero, List.getD_cons_succ]
  · unfold NTPPacket.widthOK
    dsimp only
    refine ⟨by omega, by omega, by omega, hd1,
      (unpack_i8_range d2 hd2).1, (unpack_i8_range d2 hd2).2,
      (unpack_i8_range d3 hd3).1, (unpack_i8_range d3 hd3).2,
      W1, W2, L3, W4, W5, W6, W7⟩
  · simp only [NTPPacket.to_bytes]
    have HB1 : pack_u8 (d0 / 64 % 4 * 64 + d0 / 8 % 8 * 8 + d0 % 8) = some [d0] := by
      unfold pack_u8
      rw [if_pos (by omega)]
      congr 1
      simp only [List.cons.injEq, and_true]
      omega
    rw [HB1, pack_u8_eq d1 hd1, pack_i8_unpack_i8 d2 hd2, pack_i8_unpack_i8 d3 hd3,
      B1, B2, B4, B5, B6, B7]
    simp only [Option.some_bind, Option.some.injEq]
    rw [show (d0 :: d1 :: d2 :: d3 :: r).take 48 = d0 :: d1 :: d2 :: d3 :: r.take 44 from rfl]
    simp only [List.cons_append, List.nil_append, List.append_assoc, List.cons.injEq, true_and]
    rw [take_chunk r 4 40 44 (by norm_num)]
    congr 1
    rw [take_chunk (r.drop 4) 4 36 40 (by norm_num), drop_comp r 4 4 8 (by norm_num)]
    congr 1
    rw [take_chunk (r.drop 8) 4 32 36 (by norm_num), drop_comp r 8 4 12 (by norm_num)]
    congr 1
    rw [take_chunk (r.drop 12) 8 24 32 (by norm_num), drop_comp r 12 8 20 (by norm_num)]
    congr 1
    rw [take_chunk (r.drop 20) 8 16 24 (by norm_num), drop_comp r 20 8 28 (by norm_num)]
    congr 1
    rw [take_chunk (r.drop 28) 8 8 16 (by norm_num), drop_comp r 28 8 36 (by norm_num)]

/-! ## Claim theorems -/

/-- C1 counterexample: the empty datagram fails to decode, yet the server
step does not log-and-continue — the `ValueError` escapes the loop
(modelled as `Except.error`), so the claim "a decode failure is never
fatal" is false at this input. -/
theorem c1_counterexample :
    NTPPacket.from_bytes ([] : List Nat) = none ∧
    serverStep 0 0 [] ≠ Except.ok none ∧
    serverStep 0 0 [] = Except.error "packet too short" := by
  refine ⟨rfl, ?_, rfl⟩
  intro h
  simp [serverStep, NTPPacket.from_bytes] at h

/-- C1 (amended): in `fake_server` there is no try/except around
`NTPPacket.from_bytes`, so whenever decoding the received datagram fails
the `ValueError` propagates out of the loop uncaught (fatal to the
process) and no reply is sent; the loop does not continue. -/
theorem c1_decode_failure_fatal (d n : ℚ) (data : List Nat)
    (hdec : NTPPacket.from_bytes data = none) :
    serverStep d n data = Except.error "packet too short" := by
  unfold serverStep
  rw [hdec]

/-- C1 witness: the amended claim at the empty datagram. -/
theorem c1_decode_failure_fatal_witness :
    serverStep 0 0 [] = Except.error "packet too short" :=
  c1_decode_failure_fatal 0 0 [] rfl

/-- C2 counterexample: a 49-byte buffer decodes successfully, contradicting
the claim that lengths in `[49,67]` are rejected (the code condition
`len < 48 and len != 68` is equivalent to `len < 48`). -/
theorem c2_counterexample :
    (List.replicate 49 0).length = 49 ∧
    (NTPPacket.from_bytes (List.replicate 49 0)).isSome = true :=
  ⟨rfl, rfl⟩

/-- C2 (amended): `NTPPacket.from_bytes` fails with `DecodeError` exactly
when the buffer is shorter than 48 bytes, and succeeds for every length
of at least 48 (including 49-67 and greater than 68); the `!= 68`
exemption in the guard is vacuous. -/
theorem c2_decode_length (data : List Nat) :
    (NTPPacket.from_bytes data).isSome = decide (48 ≤ data.length) := by
  by_cases h : 48 ≤ data.length
  · rw [from_bytes_isSome data h]
    simp [h]
  · rw [from_bytes_none data (by omega)]
    simp [h]

/-- C6: the two overflow policies of `NTPTimestamp.from_unix_timestamp`:
a fraction that rounds above `2^32 - 1` is clamped to `2^32 - 1` with no
carry into seconds; the seconds value is always reduced modulo `2^32`
after adding the epoch offset 2208988800; `from_unix_timestamp 0` is
`(0x83AA7E80, 0)` and `to_unix_timestamp` of that value is `0`. -/
theorem c6_timestamp_overflow_policies :
    (∀ t : ℚ, 4294967295 < pyRound ((t - (pyTrunc t : ℚ)) * 4294967296) →
      NTPTimestamp.from_unix_timestamp t =
        ⟨(pyTrunc t + 2208988800) % 4294967296, 4294967295⟩) ∧
    (∀ t : ℚ, (NTPTimestamp.from_unix_timestamp t).seconds =
      (pyTrunc t + 2208988800) % 4294967296) ∧
    NTPTimestamp.from_unix_timestamp 0 = ⟨2208988800, 0⟩ ∧
    NTPTimestamp.to_unix_timestamp ⟨2208988800, 0⟩ = 0 := by
  refine ⟨?_, ?_, ?_, ?_⟩
  · intro t h
    simp only [NTPTimestamp.from_unix_timestamp]
    rw [if_pos h]
  · intro t
    simp only [NTPTimestamp.from_unix_timestamp]
  · norm_num [NTPTimestamp.from_unix_timestamp, pyTrunc, pyRound, Int.floor_eq_iff]
  · norm_num [NTPTimestamp.to_unix_timestamp]

/-- C6 witness: a positive time whose fractional part rounds up to `2^32`
is clamped, with the seconds unaffected. -/
theorem c6_clamp_witness :
    NTPTimestamp.from_unix_timestamp (8589934591/8589934592) =
      ⟨(pyTrunc (8589934591/8589934592 : ℚ) + 2208988800) % 4294967296,
        4294967295⟩ :=
  c6_timestamp_overflow_policies.1 _
    (by norm_num [pyTrunc, pyRound, Int.floor_eq_iff])

/-- C7 counterexample: `long()` truncates toward zero, so at `-3/2` the
seconds part is `-1` while the floor is `-2`; the claim that seconds is
the floor for negative inputs is false. -/
theorem c7_counterexample :
    (NTPShort.from_float (-3/2)).seconds = -1 ∧
    (NTPTimestamp.from_unix_timestamp (-3/2)).seconds = 2208988799 ∧
    ⌊(-3/2 : ℚ)⌋ = -2 := by
  refine ⟨?_, ?_, by norm_num [Int.floor_eq_iff]⟩
  · norm_num [NTPShort.from_float, pyTrunc, pyRound, Int.floor_eq_iff]
  · norm_num [NTPTimestamp.from_unix_timestamp, pyTrunc, pyRound, Int.floor_eq_iff]

/-- C7 (amended): the integer seconds part is Python `long()` truncation
toward zero, which agrees with the floor only for non-negative inputs:
for `0 ≤ t`, `from_unix_timestamp` uses `⌊t⌋` before the epoch offset,
and `from_float` yields seconds `⌊t⌋` whenever no carry occurs. -/
theorem c7_trunc_is_floor_for_nonneg (q : ℚ) (hq : 0 ≤ q) :
    (NTPTimestamp.from_unix_timestamp q).seconds =
      (⌊q⌋ + 2208988800) % 4294967296 ∧
    (pyRound ((q - (⌊q⌋ : ℚ)) * 65536) ≤ 65535 →
      (NTPShort.from_float q).seconds = ⌊q⌋) := by
  have ht : pyTrunc q = ⌊q⌋ := by
    unfold pyTrunc
    rw [if_pos hq]
  constructor
  · simp only [NTPTimestamp.from_unix_timestamp, ht]
  · intro hfr
    simp only [NTPShort.from_float, ht]
    rw [if_neg (by omega)]

/-- C7 witness: the amended claim at `3/2`, with the no-carry hypothesis
discharged. -/
theorem c7_trunc_witness :
    (NTPTimestamp.from_unix_timestamp (3/2)).seconds =
      (⌊(3/2 : ℚ)⌋ + 2208988800) % 4294967296 ∧
    (NTPShort.from_float (3/2)).seconds = ⌊(3/2 : ℚ)⌋ :=
  ⟨(c7_trunc_is_floor_for_nonneg (3/2) (by norm_num)).1,
   (c7_trunc_is_floor_for_nonneg (3/2) (by norm_num)).2
     (by norm_num [pyRound, Int.floor_eq_iff])⟩

/-- C8: `NTPShort.from_float` carries on fraction overflow: when the
rounded fraction reaches 65536 the result is `(seconds + 1, 0)`; in
particular `from_float 1 = (1, 0)` and `from_float 0.999995 = (1, 0)`. -/
theorem c8_from_float_carry :
    (∀ q : ℚ, pyRound ((q - (pyTrunc q : ℚ)) * 65536) = 65536 →
      NTPShort.from_float q = ⟨pyTrunc q + 1, 0⟩) ∧
    NTPShort.from_float 1 = ⟨1, 0⟩ ∧
    NTPShort.from_float (999995/1000000) = ⟨1, 0⟩ := by
  refine ⟨?_, ?_, ?_⟩
  · intro q h
    simp only [NTPShort.from_float, h]
    rw [if_pos (by norm_num)]
  · norm_num [NTPShort.from_float, pyTrunc, pyRound, Int.floor_eq_iff]
  · norm_num [NTPShort.from_float, pyTrunc, pyRound, Int.floor_eq_iff]

/-- C8 witness: the carry branch taken at `0.9999995`. -/
theorem c8_carry_witness :
    NTPShort.from_float (1999999/2000000) =
      ⟨pyTrunc (1999999/2000000 : ℚ) + 1, 0⟩ :=
  c8_from_float_carry.1 _ (by norm_num [pyTrunc, pyRound, Int.floor_eq_iff])

/-- C3: for every request that passes validation (version 3 or 4 and
mode 3), the response packet is built with the request's version,
mode 4, stratum 1, the fixed reference identifier `XFAK`, the request's
transmit timestamp echoed verbatim as origin, the three time fields all
equal to `from_unix_timestamp (start + elapsed * 0.9996)`, every other
field keeping its default value; its encoding is what the server sends. -/
theorem c3_validated_response (d n : ℚ) (data : List Nat) (p : NTPPacket)
    (hdec : NTPPacket.from_bytes data = some p)
    (hv : p.version = 3 ∨ p.version = 4) (hm : p.mode = 3) :
    ∃ resp : NTPPacket,
      resp.version = p.version ∧ resp.mode = 4 ∧ resp.stratum = 1 ∧
      resp.reference_identifier = [88, 70, 65, 75] ∧
      resp.origin_timestamp = p.transmit_timestamp ∧
      resp.reference_timestamp =
        NTPTimestamp.from_unix_timestamp (d + (n - d) * (9996 / 10000)) ∧
      resp.receive_timestamp = resp.reference_timestamp ∧
      resp.transmit_timestamp = resp.reference_timestamp ∧
      resp.leap_indicator = NTPPacket.defaults.leap_indicator ∧
      resp.poll = NTPPacket.defaults.poll ∧
      resp.precision = NTPPacket.defaults.precision ∧
      resp.root_delay = NTPPacket.defaults.root_delay ∧
      resp.root_dispersion = NTPPacket.defaults.root_dispersion ∧
      (∀ out, resp.to_bytes = some out →
        serverStep d n data = Except.ok (some out)) := by
  refine ⟨buildResponse p (d + (n - d) * speed), rfl, rfl, rfl, rfl, rfl, rfl,
    rfl, rfl, rfl, rfl, rfl, rfl, rfl, ?_⟩
  intro out hout
  unfold serverStep
  rw [hdec]
  try dsimp only
  rw [if_neg (by rcases hv with h | h <;> simp [h]), if_neg (by simp [hm])]
  try dsimp only
  rw [hout]

/-- C3 witness: a 48-byte version-4 mode-3 request at start time 0. -/
theorem c3_validated_response_witness :
    ∃ resp : NTPPacket,
      resp.version = 4 ∧ resp.mode = 4 ∧ resp.stratum = 1 ∧
      resp.reference_identifier = [88, 70, 65, 75] ∧
      resp.origin_timestamp = ⟨0, 0⟩ ∧
      resp.reference_timestamp =
        NTPTimestamp.from_unix_timestamp (0 + (0 - 0) * (9996 / 10000)) ∧
      resp.receive_timestamp = resp.reference_timestamp ∧
      resp.transmit_timestamp = resp.reference_timestamp ∧
      resp.leap_indicator = NTPPacket.defaults.leap_indicator ∧
      resp.poll = NTPPacket.defaults.poll ∧
      resp.precision = NTPPacket.defaults.precision ∧
      resp.root_delay = NTPPacket.defaults.root_delay ∧
      resp.root_dispersion = NTPPacket.defaults.root_dispersion ∧
      (∀ out, resp.to_bytes = some out →
        serverStep 0 0 (35 :: List.replicate 47 0) = Except.ok (some out)) :=
  c3_validated_response 0 0 (35 :: List.replicate 47 0)
    ⟨0, 4, 3, 0, 0, 0, ⟨0, 0⟩, ⟨0, 0⟩, [0, 0, 0, 0], ⟨0, 0⟩, ⟨0, 0⟩, ⟨0, 0⟩, ⟨0, 0⟩⟩
    rfl (Or.inr rfl) rfl

/-- C4: decode is a left inverse of encode for `NTPShort`,
`NTPTimestamp` and `NTPPacket` whenever the fields are within their
declared widths and the reference identifier is exactly 4 bytes, using
the 48-byte canonical form for the packet. -/
theorem c4_decode_encode_roundtrip :
    (∀ v : NTPShort, v.widthOK →
      ∃ b, v.to_bytes = some b ∧ NTPShort.from_bytes b = some v) ∧
    (∀ v : NTPTimestamp, v.widthOK →
      ∃ b, v.to_bytes = some b ∧ NTPTimestamp.from_bytes b = some v) ∧
    (∀ p : NTPPacket, p.widthOK →
      ∃ b, p.to_bytes = some b ∧ NTPPacket.from_bytes b = some p) := by
  refine ⟨fun v h => ?_, fun v h => ?_, fun p h => ?_⟩
  · obtain ⟨b, e1, _, e3⟩ := short_roundtrip v h
    exact ⟨b, e1, e3⟩
  · obtain ⟨b, e1, _, e3⟩ := ts_roundtrip v h
    exact ⟨b, e1, e3⟩
  · obtain ⟨b, e1, _, e3⟩ := packet_roundtrip p h
    exact ⟨b, e1, e3⟩

/-- C4 witness: the round trip at concrete in-range values of all three
types. -/
theorem c4_roundtrip_witness :
    (∃ b, NTPShort.to_bytes ⟨1, 2⟩ = some b ∧
      NTPShort.from_bytes b = some ⟨1, 2⟩) ∧
    (∃ b, NTPTimestamp.to_bytes ⟨3, 4⟩ = some b ∧
      NTPTimestamp.from_bytes b = some ⟨3, 4⟩) ∧
    (∃ b, NTPPacket.to_bytes NTPPacket.defaults = some b ∧
      NTPPacket.from_bytes b = some NTPPacket.defaults) :=
  ⟨c4_decode_encode_roundtrip.1 ⟨1, 2⟩ (by norm_num [NTPShort.widthOK]),
   c4_decode_encode_roundtrip.2.1 ⟨3, 4⟩ (by norm_num [NTPTimestamp.widthOK]),
   c4_decode_encode_roundtrip.2.2 NTPPacket.defaults
     (by norm_num [NTPPacket.widthOK, NTPPacket.defaults, NTPShort.widthOK,
        NTPTimestamp.widthOK, NTPShort.ZERO, NTPTimestamp.ZERO])⟩

/-- C5: a successfully decoded request whose version is not 3 or 4, or
whose mode is not 3, makes the server send nothing and return to the
top of the loop. -/
theorem c5_invalid_request_no_reply (d n : ℚ) (data : List Nat) (p : NTPPacket)
    (hdec : NTPPacket.from_bytes data = some p)
    (hbad : (p.version ≠ 3 ∧ p.version ≠ 4) ∨ p.mode ≠ 3) :
    serverStep d n data = Except.ok none := by
  unfold serverStep
  rw [hdec]
  try dsimp only
  rcases hbad with h | h
  · rw [if_pos h]
  · by_cases hv : p.version ≠ 3 ∧ p.version ≠ 4
    · rw [if_pos hv]
    · rw [if_neg hv, if_pos h]

/-- C5 witness: a version-4 mode-1 (symmetric active) request is dropped
with no reply. -/
theorem c5_invalid_request_witness :
    serverStep 0 0 (33 :: List.replicate 47 0) = Except.ok none :=
  c5_invalid_request_no_reply 0 0 _
    ⟨0, 4, 1, 0, 0, 0, ⟨0, 0⟩, ⟨0, 0⟩, [0, 0, 0, 0], ⟨0, 0⟩, ⟨0, 0⟩, ⟨0, 0⟩, ⟨0, 0⟩⟩
    rfl (Or.inr (by decide))

/-- C9: encoding a width-bound packet always yields exactly 48 bytes, and
for an accepted 68-byte buffer the 20-byte trailer is discarded on decode
and never re-emitted: re-encoding equals the first 48 bytes. -/
theorem c9_encode_length_and_trailer :
    (∀ p : NTPPacket, p.widthOK →
      ∃ out, p.to_bytes = some out ∧ out.length = 48) ∧
    (∀ b : List Nat, b.length = 68 → (∀ x ∈ b, x < 256) →
      ∃ p out, NTPPacket.from_bytes b = some p ∧ p.to_bytes = some out ∧
        out = b.take 48) := by
  constructor
  · intro p h
    obtain ⟨out, e1, e2, _⟩ := packet_roundtrip p h
    exact ⟨out, e1, e2⟩
  · intro b hlen hb
    obtain ⟨p, e, _, enc⟩ := from_bytes_full b (by omega) hb
    exact ⟨p, b.take 48, e, enc, rfl⟩

/-- C9 witness: a concrete in-range packet encodes to 48 bytes, and the
all-zero 68-byte buffer decodes and re-encodes to its first 48 bytes. -/
theorem c9_encode_witness :
    (∃ out, NTPPacket.to_bytes
        ⟨1, 4, 4, 2, 3, -4, ⟨1, 2⟩, ⟨3, 4⟩, [9, 8, 7, 6], ⟨5, 6⟩, ⟨7, 8⟩,
          ⟨9, 10⟩, ⟨11, 12⟩⟩ = some out ∧ out.length = 48) ∧
    (∃ p out, NTPPacket.from_bytes (List.replicate 68 0) = some p ∧
      p.to_bytes = some out ∧ out = (List.replicate 68 0).take 48) :=
  ⟨c9_encode_length_and_trailer.1 _
     (by norm_num [NTPPacket.widthOK, NTPShort.widthOK, NTPTimestamp.widthOK]),
   c9_encode_length_and_trailer.2 _ rfl
     (fun x hx => by rw [List.eq_of_mem_replicate hx]; norm_num)⟩

/-- C10: every packet produced by `from_bytes` from genuine bytes, and the
default-constructed packet, satisfy the field-width invariants, and
`to_bytes` neither fails nor truncates on them (exactly 48 bytes out). -/
theorem c10_field_width_invariants :
    (∀ (data : List Nat) (p : NTPPacket), (∀ x ∈ data, x < 256) →
      NTPPacket.from_bytes data = some p →
      p.widthOK ∧ ∃ out, p.to_bytes = some out ∧ out.length = 48) ∧
    (NTPPacket.defaults.widthOK ∧
      ∃ out, NTPPacket.defaults.to_bytes = some out ∧ out.length = 48) := by
  constructor
  · intro data p hb hdec
    by_cases h48 : 48 ≤ data.length
    · obtain ⟨q, e, w, enc⟩ := from_bytes_full data h48 hb
      rw [e] at hdec
      obtain rfl := Option.some.inj hdec
      refine ⟨w, data.take 48, enc, ?_⟩
      simp only [List.length_take]
      omega
    · rw [from_bytes_none data (by omega)] at hdec
      exact absurd hdec (by simp)
  · have hw : NTPPacket.defaults.widthOK := by
      norm_num [NTPPacket.widthOK, NTPPacket.defaults, NTPShort.widthOK,
        NTPTimestamp.widthOK, NTPShort.ZERO, NTPTimestamp.ZERO]
    obtain ⟨out, e1, e2, _⟩ := packet_roundtrip NTPPacket.defaults hw
    exact ⟨hw, out, e1, e2⟩

/-- C10 witness: the packet decoded from 48 zero bytes satisfies the
invariants and encodes to 48 bytes. -/
theorem c10_invariants_witness :
    (⟨0, 0, 0, 0, 0, 0, ⟨0, 0⟩, ⟨0, 0⟩, [0, 0, 0, 0], ⟨0, 0⟩, ⟨0, 0⟩,
       ⟨0, 0⟩, ⟨0, 0⟩⟩ : NTPPacket).widthOK ∧
    ∃ out, (⟨0, 0, 0, 0, 0, 0, ⟨0, 0⟩, ⟨0, 0⟩, [0, 0, 0, 0], ⟨0, 0⟩, ⟨0, 0⟩,
       ⟨0, 0⟩, ⟨0, 0⟩⟩ : NTPPacket).to_bytes = some out ∧ out.length = 48 :=
  c10_field_width_invariants.1 (List.replicate 48 0) _
    (fun x hx => by rw [List.eq_of_mem_replicate hx]; norm_num) rfl
